import Mathlib

/-
  Shallow embedding of the email-service-frontend client.

  Sources embedded:
  - services/api.ts            (ApiService: thin HTTP wrappers; modelled as call tags)
  - contexts/AuthContext.tsx   (verifyStoredToken, login, logout)
  - pages/Login.tsx            (handleSubmit)
  - pages/Setup.tsx            (handleTestConnection, handleSaveConfig, button disabling)
  - pages/Dashboard.tsx        (fetchData, handleServiceControl, handleSavePin, polling)

  Asynchronous handlers are embedded as pure functions from the pre-state and
  the outcomes of the awaited backend calls to the post-state plus the ordered
  list of calls the handler issued.  A backend call outcome is an
  Except ApiError value: the error case is a rejected promise (axios rejects on
  transport failure and on non-2xx), carrying the optional structured fields
  the catch blocks read.
-/

/-- JS truthiness of a possibly-absent string: null/undefined and the empty
string are falsy, every other string is truthy. -/
def truthy : Option String → Bool
  | none => false
  | some s => !(s == "")

/-- JS short-circuit a || b for a string a with the empty string falsy. -/
def jsOrS (a b : String) : String :=
  if a == "" then b else a

/-- JS short-circuit a || b where a is a possibly-absent string field. -/
def jsOr (a : Option String) (b : String) : String :=
  match a with
  | none => b
  | some s => jsOrS s b

/-- A rejected backend call, as the catch blocks see it: the optional
structured body fields error.response.data.message and
error.response.data.error. -/
structure ApiError where
  respMessage : Option String
  respError : Option String
deriving Repr, DecidableEq

/-- A value thrown out of the login function and caught by handleSubmit:
err.response.data.message (present only for a transport error with a
structured body) and err.message (always present on an Error object). -/
structure JsError where
  respDataMessage : Option String
  message : Option String
deriving Repr, DecidableEq

/- ===================== Session store (AuthContext.tsx) ===================== -/

/-- Durable client-side storage: the token and user keys of localStorage.
The user value is the JSON-serialized user record. -/
structure Storage where
  token : Option String
  user : Option String
deriving Repr, DecidableEq

/-- In-memory session state of AuthProvider: the token and user React states.
The user is kept as its serialized form; JSON.parse/JSON.stringify mediate
between Storage and Session and are inverse on the values this app stores. -/
structure Session where
  token : Option String
  user : Option String
deriving Repr, DecidableEq

/-- The empty session: both React states null. -/
def emptySession : Session :=
  { token := none, user := none }

/-- isAuthenticated is defined in AuthContext as double-negation of the
in-memory token. -/
def isAuthenticated (s : Session) : Bool :=
  truthy s.token

/-- Outcome of the backend verification call awaited by verifyStoredToken:
a resolved response carrying its success boolean, or a rejection. -/
inductive VerifyResult
  | ok (success : Bool)
  | threw
deriving Repr, DecidableEq

/-- Result of the startup bootstrap: the session and storage afterwards,
whether the verification endpoint was called, whether any error was surfaced
to the user (AuthProvider has no error state at all, so this is always
false), and the loading flag (cleared at the end of verifyStoredToken). -/
structure BootstrapResult where
  session : Session
  storage : Storage
  callMade : Bool
  errorSurfaced : Bool
  loading : Bool
deriving Repr, DecidableEq

/-- verifyStoredToken from AuthContext.tsx: read the persisted pair; when
both values are truthy, await the verification call; on success restore the
session from the persisted pair, otherwise (reported failure or throw) remove
both persisted keys and leave the session empty; in all cases clear loading
and surface no error. -/
def verifyStoredToken (st : Storage) (v : VerifyResult) : BootstrapResult :=
  if truthy st.token && truthy st.user then
    match v with
    | .ok true =>
        { session := { token := st.token, user := st.user }
          storage := st
          callMade := true
          errorSurfaced := false
          loading := false }
    | .ok false =>
        { session := emptySession
          storage := { token := none, user := none }
          callMade := true
          errorSurfaced := false
          loading := false }
    | .threw =>
        { session := emptySession
          storage := { token := none, user := none }
          callMade := true
          errorSurfaced := false
          loading := false }
  else
    { session := emptySession
      storage := st
      callMade := false
      errorSurfaced := false
      loading := false }

/-- Modelled from the spec: the route guard component is not under src/; the
spec states that every protected screen derives its access decision solely
from isAuthenticated and that an empty session presents the login screen. -/
def showsLoginScreen (s : Session) : Bool :=
  !(isAuthenticated s)

/- ===================== Login (AuthContext.tsx login, Login.tsx) ===================== -/

/-- Response of POST /authenticate as the login function reads it. -/
structure AuthResp where
  success : Bool
  token : String
  user : String
  message : Option String
deriving Repr, DecidableEq

/-- Response of GET /check-email-config as the login function reads it. -/
structure ConfigCheckResp where
  exists_ : Bool
deriving Repr, DecidableEq

/-- Navigation targets reachable from the login flow. -/
inductive Route
  | dashboard
  | setup
  | login
deriving Repr, DecidableEq

/-- Result of the login function: session and storage afterwards, the
navigation it performed (none when it did not navigate), and the value it
threw (none when it returned normally). -/
structure LoginResult where
  session : Session
  storage : Storage
  nav : Option Route
  thrown : Option JsError
deriving Repr, DecidableEq

/-- login from AuthContext.tsx: await authenticate; on response.success set
the session and persist both keys, then await the config-existence check and
navigate to dashboard or setup; on reported failure throw a new Error whose
message is response.message or the fallback; a rejection of either awaited
call is logged and rethrown unchanged. -/
def loginAction (s0 : Session) (st0 : Storage)
    (auth : Except JsError AuthResp)
    (cfg : Except JsError ConfigCheckResp) : LoginResult :=
  match auth with
  | .error e =>
      { session := s0, storage := st0, nav := none, thrown := some e }
  | .ok r =>
      if r.success then
        let sess : Session := { token := some r.token, user := some r.user }
        let st1 : Storage := { token := some r.token, user := some r.user }
        match cfg with
        | .ok c =>
            { session := sess
              storage := st1
              nav := some (if c.exists_ then Route.dashboard else Route.setup)
              thrown := none }
        | .error e =>
            { session := sess, storage := st1, nav := none, thrown := some e }
      else
        { session := s0
          storage := st0
          nav := none
          thrown := some { respDataMessage := none
                           message := some (jsOr r.message "Authentication failed") } }

/-- The error string Login.tsx handleSubmit displays for a caught value:
err.response.data.message or err.message or the fallback. -/
def displayedLoginError (e : JsError) : String :=
  jsOr e.respDataMessage (jsOr e.message "Login failed")

/-- Result of a Login.tsx submit: the login result plus the error string
rendered beneath the form (none when login returned normally) and the final
loading flag (cleared in the finally block). -/
structure SubmitResult where
  session : Session
  storage : Storage
  nav : Option Route
  errorShown : Option String
  loading : Bool
deriving Repr, DecidableEq

/-- handleSubmit from Login.tsx: clear the error, await login, render the
derived error string for a caught value, and clear loading in finally. -/
def handleSubmit (s0 : Session) (st0 : Storage)
    (auth : Except JsError AuthResp)
    (cfg : Except JsError ConfigCheckResp) : SubmitResult :=
  let r := loginAction s0 st0 auth cfg
  { session := r.session
    storage := r.storage
    nav := r.nav
    errorShown := Option.map displayedLoginError r.thrown
    loading := false }

/- ===================== Setup flow (Setup.tsx) ===================== -/

/-- The five database-connection fields, the payload of POST /test-connection
and POST /save-config. -/
structure DbConfig where
  server : String
  port : Nat
  user : String
  password : String
  database : String
deriving Repr, DecidableEq

/-- The payload of POST /save-email-config. -/
structure EmailConfigPayload where
  start_time : String
  end_time : String
  interval : Nat
  interval_unit : String
  db_request_timeout : Nat
  db_connection_timeout : Nat
  username : String
  password : String
deriving Repr, DecidableEq

/-- The backend calls the Setup page can issue, with their payloads, in the
order issued. -/
inductive SetupCall
  | testConn (d : DbConfig)
  | saveDb (d : DbConfig)
  | saveEmail (p : EmailConfigPayload)
deriving Repr, DecidableEq

/-- An inline notice: success or error, with its text. -/
inductive Msg
  | success (text : String)
  | error (text : String)
deriving Repr, DecidableEq

/-- The React states of the Setup page. -/
structure SetupState where
  server : String
  port : Nat
  dbUser : String
  dbPassword : String
  database : String
  startTime : String
  endTime : String
  interval : Nat
  intervalUnit : String
  dbRequestTimeout : Nat
  dbConnectionTimeout : Nat
  connectionTested : Bool
  testLoading : Bool
  saveLoading : Bool
  message : Option Msg
deriving Repr, DecidableEq

/-- The useState initial values of Setup.tsx. -/
def initialSetupState : SetupState :=
  { server := ""
    port := 1433
    dbUser := ""
    dbPassword := ""
    database := ""
    startTime := "06:00"
    endTime := "22:00"
    interval := 5
    intervalUnit := "minutes"
    dbRequestTimeout := 30000
    dbConnectionTimeout := 30000
    connectionTested := false
    testLoading := false
    saveLoading := false
    message := none }

/-- The database payload assembled from the current field values, used by
both the test and the save handlers. -/
def currentDbConfig (s : SetupState) : DbConfig :=
  { server := s.server
    port := s.port
    user := s.dbUser
    password := s.dbPassword
    database := s.database }

/-- Response of POST /test-connection as handleTestConnection reads it. -/
structure TestResp where
  success : Bool
  message : Option String
deriving Repr, DecidableEq

/-- handleTestConnection from Setup.tsx: clear the message, issue the test
call with the five current fields; on response.success set the tested flag
and a success notice; on reported failure clear the flag and show
response.message or the fallback; on a rejection clear the flag and show the
structured body message or the fallback; clear testLoading in finally. -/
def handleTestConnection (s : SetupState) (r : Except ApiError TestResp) :
    SetupState × List SetupCall :=
  let call := SetupCall.testConn (currentDbConfig s)
  match r with
  | .ok resp =>
      if resp.success then
        ({ s with connectionTested := true
                  testLoading := false
                  message := some (Msg.success "Connection successful!") }, [call])
      else
        ({ s with connectionTested := false
                  testLoading := false
                  message := some (Msg.error (jsOr resp.message "Connection failed")) }, [call])
  | .error e =>
      ({ s with connectionTested := false
                testLoading := false
                message := some (Msg.error (jsOr e.respMessage "Connection test failed")) }, [call])

/-- The time reformat in handleSaveConfig: time.replace on the string
pattern ":" removes the first colon only (JS String.replace with a string
pattern replaces the first occurrence). -/
def removeFirstColon : List Char → List Char
  | [] => []
  | c :: cs => if c = ':' then cs else c :: removeFirstColon cs

/-- formatTime from handleSaveConfig: HH:MM display form to compact HHMM. -/
def formatTime (time : String) : String :=
  String.mk (removeFirstColon time.data)

/-- The email payload handleSaveConfig assembles: reformatted times, the
interval and timeout fields, the logged-in username (or the fallback admin
when the session user is absent) and the just-entered database password. -/
def emailPayload (s : SetupState) (loggedInUser : Option String) : EmailConfigPayload :=
  { start_time := formatTime s.startTime
    end_time := formatTime s.endTime
    interval := s.interval
    interval_unit := s.intervalUnit
    db_request_timeout := s.dbRequestTimeout
    db_connection_timeout := s.dbConnectionTimeout
    username := jsOr loggedInUser "admin"
    password := s.dbPassword }

/-- Result of a save action: the state afterwards, the calls issued in
order, and whether navigation to the dashboard was scheduled. -/
structure SaveResult where
  state : SetupState
  calls : List SetupCall
  navigatesToDashboard : Bool
deriving Repr, DecidableEq

/-- handleSaveConfig from Setup.tsx: when the connection is untested, show
an error and return without issuing anything; otherwise await the database
write, and only after it resolves await the schedule write with the
reformatted times; a rejection of either write shows the structured body
message or the fallback and prevents navigation; on both resolving, show a
success notice and schedule navigation to the dashboard. The resolved
response bodies of the two writes are not inspected. -/
def handleSaveConfig (s : SetupState) (loggedInUser : Option String)
    (dbR : Except ApiError Unit) (emR : Except ApiError Unit) : SaveResult :=
  if !s.connectionTested then
    { state := { s with message := some (Msg.error "Please test the connection first") }
      calls := []
      navigatesToDashboard := false }
  else
    let dbCall := SetupCall.saveDb (currentDbConfig s)
    match dbR with
    | .error e =>
        { state := { s with saveLoading := false
                            message := some (Msg.error (jsOr e.respMessage "Failed to save configuration")) }
          calls := [dbCall]
          navigatesToDashboard := false }
    | .ok _ =>
        let emCall := SetupCall.saveEmail (emailPayload s loggedInUser)
        match emR with
        | .error e =>
            { state := { s with saveLoading := false
                                message := some (Msg.error (jsOr e.respMessage "Failed to save configuration")) }
              calls := [dbCall, emCall]
              navigatesToDashboard := false }
        | .ok _ =>
            { state := { s with saveLoading := false
                                message := some (Msg.success "Configuration saved successfully!") }
              calls := [dbCall, emCall]
              navigatesToDashboard := true }

/-- The Save Config button of Setup.tsx is disabled while the connection is
untested or a save is in flight. -/
def saveButtonDisabled (s : SetupState) : Bool :=
  !s.connectionTested || s.saveLoading

/-- A field edit event on the Setup page: each form control writes one
React state. -/
inductive FieldEdit
  | server (v : String)
  | port (v : Nat)
  | dbUser (v : String)
  | dbPassword (v : String)
  | database (v : String)
  | startTime (v : String)
  | endTime (v : String)
  | interval (v : Nat)
  | intervalUnit (v : String)
  | dbRequestTimeout (v : Nat)
  | dbConnectionTimeout (v : Nat)
deriving Repr, DecidableEq

/-- Apply a field edit: each onChange handler writes exactly its own state. -/
def applyEdit (s : SetupState) : FieldEdit → SetupState
  | .server v => { s with server := v }
  | .port v => { s with port := v }
  | .dbUser v => { s with dbUser := v }
  | .dbPassword v => { s with dbPassword := v }
  | .database v => { s with database := v }
  | .startTime v => { s with startTime := v }
  | .endTime v => { s with endTime := v }
  | .interval v => { s with interval := v }
  | .intervalUnit v => { s with intervalUnit := v }
  | .dbRequestTimeout v => { s with dbRequestTimeout := v }
  | .dbConnectionTimeout v => { s with dbConnectionTimeout := v }

/-- An editing-session event on the Setup page: a field edit, a completed
test action with its call outcome, or a completed save action with its two
call outcomes. -/
inductive SetupEvent
  | edit (e : FieldEdit)
  | test (r : Except ApiError TestResp)
  | save (loggedInUser : Option String) (dbR : Except ApiError Unit) (emR : Except ApiError Unit)

/-- One step of the Setup editing session: the state afterwards and the
calls issued during the step. -/
def stepSetup (s : SetupState) : SetupEvent → SetupState × List SetupCall
  | .edit e => (applyEdit s e, [])
  | .test r => handleTestConnection s r
  | .save u dbR emR =>
      let res := handleSaveConfig s u dbR emR
      (res.state, res.calls)

/-- Run a list of Setup events from a state, accumulating the issued calls
in order. -/
def runSetup (s : SetupState) : List SetupEvent → SetupState × List SetupCall
  | [] => (s, [])
  | ev :: evs =>
      let (s1, cs1) := stepSetup s ev
      let (s2, cs2) := runSetup s1 evs
      (s2, cs1 ++ cs2)

/-- An event is a test-connection completion that reported success. -/
def isSuccessfulTest : SetupEvent → Bool
  | .test (.ok r) => r.success
  | _ => false

/-- A call is one of the two configuration writes. -/
def isWriteCall : SetupCall → Bool
  | .saveDb _ => true
  | .saveEmail _ => true
  | .testConn _ => false

/- ===================== Dashboard data interfaces (Dashboard.tsx) ===================== -/

/-- The email counters of the service snapshot. -/
structure EmailStats where
  total_processed : Int
  total_sent : Int
  total_failed : Int
  pending_count : Int
deriving Repr, DecidableEq

/-- The database part of the dashboard snapshot. -/
structure DbStatus where
  connected : Bool
  server : String
  database : String
  last_checked : String
  response_time : Int
  message : Option String
deriving Repr, DecidableEq

/-- The schedule part of the dashboard snapshot. -/
structure ScheduleStatus where
  start_time : String
  end_time : String
  interval : Int
  interval_unit : String
  is_active : Bool
  within_schedule : Bool
  next_run : Option String
deriving Repr, DecidableEq

/-- The service part of the dashboard snapshot. -/
structure ServiceStatus where
  status : String
  started_at : String
  last_activity : String
  next_run : String
  is_processing : Bool
  email_stats : EmailStats
deriving Repr, DecidableEq

/-- Response of GET /dashboard. -/
structure DashboardData where
  database : DbStatus
  schedule : ScheduleStatus
  service : ServiceStatus
deriving Repr, DecidableEq

/-- Response of GET /certificate-status. -/
structure CertificateStatus where
  success : Bool
  available : Bool
  token_present : Bool
  certificate_found : Bool
  token_label : Option String
  slot_id : Option Int
  certificate_id : Option String
  certificate_subject : Option String
  certificate_not_valid_before : Option String
  certificate_not_valid_after : Option String
  library_path : String
  error : Option String
deriving Repr, DecidableEq

/-- One certificate record of GET /certificates. -/
structure Certificate where
  subject : String
  issuer : String
  serial_number : String
  not_valid_before : String
  not_valid_after : String
  thumbprint : String
  has_private_key : Bool
  store_name : Option String
  store_location : Option String
  source : String
  token_label : Option String
  slot_id : Option Int
deriving Repr, DecidableEq

/-- Response of GET /certificates. -/
structure CertificatesResponse where
  success : Bool
  total_certificates : Int
  system_certificates : List Certificate
  hardware_certificates : List Certificate
  error : Option String
deriving Repr, DecidableEq

/-- One per-certificate PIN record of GET /certificate-pin-status. -/
structure CertificatePinStatus where
  token_present : Bool
  token_label : String
  slot_id : Int
  certificate_id : String
  subject : String
  issuer : String
  serial_number : String
  not_valid_before : String
  not_valid_after : String
  pin_configured : Bool
  pin_valid : Bool
  pin_last_verified_at : Option String
  pin_last_error : Option String
deriving Repr, DecidableEq

/-- Response of GET /certificate-pin-status. -/
structure CertificatePinStatusResponse where
  success : Bool
  total_certificates : Int
  certificates : List CertificatePinStatus
  error : Option String
deriving Repr, DecidableEq

/-- A message notice of Dashboard.tsx: type success or error, and a text that
may be absent (the service-control success path renders response.message
directly, which may be undefined). -/
structure DashMsg where
  isSuccess : Bool
  text : Option String
deriving Repr, DecidableEq

/-- The React states of the Dashboard page that the embedded handlers touch. -/
structure DashState where
  dashboardData : Option DashboardData
  certificateStatus : Option CertificateStatus
  certificates : Option CertificatesResponse
  certificatePinStatus : Option CertificatePinStatusResponse
  loading : Bool
  actionLoading : Bool
  message : Option DashMsg
  showPinModal : Bool
  selectedCertificate : Option Certificate
  pinInput : String
  pinLoading : Bool
  pinModalError : Option String
deriving Repr, DecidableEq

/-- The useState initial values of Dashboard.tsx. -/
def initialDashState : DashState :=
  { dashboardData := none
    certificateStatus := none
    certificates := none
    certificatePinStatus := none
    loading := true
    actionLoading := false
    message := none
    showPinModal := false
    selectedCertificate := none
    pinInput := ""
    pinLoading := false
    pinModalError := none }

/- ===================== Dashboard fetch batch (fetchData) ===================== -/

/-- The error branch of fetchData: the four snapshots are untouched, an
error notice is shown from the structured body message or the fallback, and
loading ends. -/
def fetchDataFail (s : DashState) (e : ApiError) : DashState :=
  { s with message := some { isSuccess := false
                             text := some (jsOr e.respMessage "Failed to fetch dashboard data") }
           loading := false }

/-- fetchData from Dashboard.tsx: Promise.all over the four reads (dashboard,
certificate status, certificate inventory, PIN status with refresh false);
when all four resolve, replace all four snapshots wholesale; when any one
rejects, Promise.all rejects and the catch branch runs with that rejection,
touching none of the snapshots; loading is cleared in finally either way. -/
def fetchData (s : DashState)
    (dash : Except ApiError DashboardData)
    (cert : Except ApiError CertificateStatus)
    (certs : Except ApiError CertificatesResponse)
    (pins : Except ApiError CertificatePinStatusResponse) : DashState :=
  match dash, cert, certs, pins with
  | .ok d, .ok c, .ok cs, .ok p =>
      { s with dashboardData := some d
               certificateStatus := some c
               certificates := some cs
               certificatePinStatus := some p
               loading := false }
  | .error e, _, _, _ => fetchDataFail s e
  | _, .error e, _, _ => fetchDataFail s e
  | _, _, .error e, _ => fetchDataFail s e
  | _, _, _, .error e => fetchDataFail s e

/- ===================== Service control (handleServiceControl) ===================== -/

/-- Response of POST /service-control. -/
structure ControlResp where
  success : Bool
  message : Option String
deriving Repr, DecidableEq

/-- The intermediate Dashboard state while a service-control call is
outstanding: actionLoading set, message cleared. -/
def controlPending (s : DashState) : DashState :=
  { s with actionLoading := true, message := none }

/-- The Start button of Dashboard.tsx is disabled when the displayed service
status is running or a control action is outstanding. -/
def startButtonDisabled (s : DashState) : Bool :=
  (Option.map (fun d => d.service.status) s.dashboardData == some "running") || s.actionLoading

/-- The Stop button of Dashboard.tsx is disabled when the displayed service
status is not running or a control action is outstanding. -/
def stopButtonDisabled (s : DashState) : Bool :=
  !(Option.map (fun d => d.service.status) s.dashboardData == some "running") || s.actionLoading

/-- Result of a service-control action: the state afterwards and whether an
immediate re-fetch of the four-way batch was performed. -/
structure ControlResult where
  state : DashState
  refetched : Bool
deriving Repr, DecidableEq

/-- handleServiceControl from Dashboard.tsx: set actionLoading and clear the
message, await the control call with the action and the session username (or
the admin fallback); when the response reports success, show its message and
await a full fetchData batch; when it reports failure or rejects, show the
derived error and do not re-fetch; clear actionLoading in finally. The
action string is start or stop and appears in the fallback error text. -/
def handleServiceControl (s : DashState) (action : String)
    (r : Except ApiError ControlResp)
    (dash : Except ApiError DashboardData)
    (cert : Except ApiError CertificateStatus)
    (certs : Except ApiError CertificatesResponse)
    (pins : Except ApiError CertificatePinStatusResponse) : ControlResult :=
  let p := controlPending s
  match r with
  | .ok resp =>
      if resp.success then
        let p1 := { p with message := some { isSuccess := true, text := resp.message } }
        let p2 := fetchData p1 dash cert certs pins
        { state := { p2 with actionLoading := false }, refetched := true }
      else
        { state := { p with actionLoading := false
                            message := some { isSuccess := false
                                              text := some (jsOr resp.message ("Failed to " ++ action ++ " service")) } }
          refetched := false }
  | .error e =>
      { state := { p with actionLoading := false
                          message := some { isSuccess := false
                                            text := some (jsOr e.respMessage ("Failed to " ++ action ++ " service")) } }
        refetched := false }

/- ===================== PIN save (handleSavePin) ===================== -/

/-- One entry of the POST /certificate-pin payload, as handleSavePin builds
it from the selected certificate and the PIN input. -/
structure PinEntry where
  token_label : String
  certificate_id : String
  slot_id : Int
  pin : String
  certificate_subject : String
  certificate_serial : String
deriving Repr, DecidableEq

/-- One success/failure record of the PIN-storage response. -/
structure PinResult where
  success : Bool
  message : Option String
  error : Option String
deriving Repr, DecidableEq

/-- The two shapes the PIN-storage endpoint may respond with: a bare object
or an array of per-entry results. -/
inductive PinResponse
  | obj (r : PinResult)
  | arr (rs : List PinResult)
deriving Repr, DecidableEq

/-- The backend calls the PIN flow can issue, in order. -/
inductive PinCall
  | storePin (entries : List PinEntry)
  | pinStatusQuery (refresh : Bool)
deriving Repr, DecidableEq

/-- The payload entry handleSavePin assembles for a selected certificate:
token_label with the empty-string fallback, the thumbprint as
certificate_id, slot_id with the zero fallback, the PIN input, the subject
and the serial number. -/
def pinEntryFor (c : Certificate) (pin : String) : PinEntry :=
  { token_label := jsOr c.token_label ""
    certificate_id := c.thumbprint
    slot_id := c.slot_id.getD 0
    pin := pin
    certificate_subject := c.subject
    certificate_serial := c.serial_number }

/-- The error text the handleSavePin catch block derives from a rejection:
the structured body message, else the structured body error, else the
fallback. -/
def pinCatchText (e : ApiError) : String :=
  jsOr e.respMessage (jsOr e.respError "Failed to save PIN")

/-- The success path shared by both response shapes: show the success
notice, close the modal, clear the input, the selection and the modal error,
then await the forced PIN-status refresh; a rejection of the refresh is
caught by the outer catch and lands in the modal error state. -/
def pinSuccessState (s : DashState)
    (refreshR : Except ApiError CertificatePinStatusResponse) : DashState :=
  let base := { s with message := some { isSuccess := true, text := some "PIN saved successfully" }
                       showPinModal := false
                       pinInput := ""
                       selectedCertificate := none
                       pinModalError := none
                       pinLoading := false }
  match refreshR with
  | .ok p => { base with certificatePinStatus := some p }
  | .error e => { base with pinModalError := some (pinCatchText e) }

/-- handleSavePin from Dashboard.tsx: when no certificate is selected or the
input is empty, set the modal error and return without calling the backend.
Otherwise issue the single-entry store call. When the response is an array,
inspect its first element: on a present failing element show its error, else
its message, else the fallback, keeping the modal open; on a present
succeeding element run the success path; on an empty array do nothing. When
the response is a bare object: on success run the success path, else show
the object's message or the fallback (the object's error field is not
read). A rejection shows the structured message, else the structured error,
else the fallback. pinLoading is cleared in finally. -/
def handleSavePin (s : DashState)
    (resp : Except ApiError PinResponse)
    (refreshR : Except ApiError CertificatePinStatusResponse) :
    DashState × List PinCall :=
  match s.selectedCertificate, truthy (some s.pinInput) with
  | none, _ =>
      ({ s with pinModalError := some "Please enter a PIN" }, [])
  | some _, false =>
      ({ s with pinModalError := some "Please enter a PIN" }, [])
  | some c, true =>
      let started := { s with pinLoading := true, pinModalError := none, message := none }
      let entries := [pinEntryFor c s.pinInput]
      let storeCall := PinCall.storePin entries
      match resp with
      | .ok (.arr rs) =>
          match rs.head? with
          | some r =>
              if r.success then
                (pinSuccessState started refreshR, [storeCall, PinCall.pinStatusQuery true])
              else
                ({ started with pinLoading := false
                                pinModalError := some (jsOr r.error (jsOr r.message "Failed to save PIN")) },
                 [storeCall])
          | none =>
              ({ started with pinLoading := false }, [storeCall])
      | .ok (.obj r) =>
          if r.success then
            (pinSuccessState started refreshR, [storeCall, PinCall.pinStatusQuery true])
          else
            ({ started with pinLoading := false
                            pinModalError := some (jsOr r.message "Failed to save PIN") },
             [storeCall])
      | .error e =>
          ({ started with pinLoading := false
                          pinModalError := some (pinCatchText e) },
           [storeCall])

/- ===================== Dashboard polling (useEffect) ===================== -/

/-- The polling period the mount effect passes to setInterval, in
milliseconds. -/
def pollPeriodMs : Nat := 10000

/-- A repeating timer as installed by setInterval: its installation time and
its period. The Dashboard mount effect installs one with the fetchData
callback and period pollPeriodMs, and its cleanup clears it. -/
structure IntervalTimer where
  installedAt : Nat
  period : Nat
deriving Repr, DecidableEq

/-- The timer the Dashboard mount effect installs at mount time. -/
def dashboardTimer (mountTime : Nat) : IntervalTimer :=
  { installedAt := mountTime, period := pollPeriodMs }

/-- Standard setInterval/clearInterval semantics: an interval installed at
time m with period p and cleared at time u fires at the times m + p, m + 2p,
m + 3p, ... that fall strictly before u; after the clear it never fires.
This predicate holds exactly when the timer fires at time t. -/
def intervalFiresAt (timer : IntervalTimer) (clearedAt : Nat) (t : Nat) : Bool :=
  decide (timer.installedAt < t ∧ (t - timer.installedAt) % timer.period = 0 ∧ t < clearedAt)

/-- True when a timer-driven four-way batch is initiated at time t, for a
Dashboard mounted at mountTime and unmounted at unmountTime: the cleanup
returned by the effect clears the interval at unmount. -/
def timerBatchAt (mountTime unmountTime t : Nat) : Bool :=
  intervalFiresAt (dashboardTimer mountTime) unmountTime t

/- ===================== Claim theorems ===================== -/

/-- Claim C1: for every startup with a persisted token and user both present,
the verification call is made; if it reports success the session is restored
with exactly the persisted pair and storage is untouched; if it
reports failure or throws, the session is empty and both persisted keys are
cleared; no error is surfaced. -/
theorem c1_bootstrap_verification (st : Storage) (v : VerifyResult)
    (ht : truthy st.token = true) (hu : truthy st.user = true) :
    (verifyStoredToken st v).callMade = true ∧
    (v = VerifyResult.ok true →
      (verifyStoredToken st v).session = { token := st.token, user := st.user } ∧
      (verifyStoredToken st v).storage = st) ∧
    ((v = VerifyResult.ok false ∨ v = VerifyResult.threw) →
      (verifyStoredToken st v).session = emptySession ∧
      (verifyStoredToken st v).storage = { token := none, user := none }) ∧
    (verifyStoredToken st v).errorSurfaced = false := by
  cases v with
  | ok b => cases b <;> simp [verifyStoredToken, ht, hu]
  | threw => simp [verifyStoredToken, ht, hu]

theorem c1_bootstrap_verification_witness :
    truthy (some "tok") = true ∧
    (verifyStoredToken { token := some "tok", user := some "usr" } VerifyResult.threw).session
      = emptySession :=
  ⟨by decide,
   ((c1_bootstrap_verification { token := some "tok", user := some "usr" }
      VerifyResult.threw (by decide) (by decide)).2.2.1 (Or.inr rfl)).1⟩

/-- Claim C2: for every startup with the persisted token and user absent, no
verification call is made, the session stays empty, isAuthenticated is
false, and the login screen is presented. -/
theorem c2_bootstrap_absent (st : Storage) (v : VerifyResult)
    (ht : st.token = none) (hu : st.user = none) :
    (verifyStoredToken st v).callMade = false ∧
    (verifyStoredToken st v).session = emptySession ∧
    isAuthenticated (verifyStoredToken st v).session = false ∧
    showsLoginScreen (verifyStoredToken st v).session = true := by
  simp [verifyStoredToken, truthy, ht, hu, showsLoginScreen, isAuthenticated, emptySession]

theorem c2_bootstrap_absent_witness :
    (verifyStoredToken { token := none, user := none } VerifyResult.threw).callMade = false ∧
    (verifyStoredToken { token := none, user := none } VerifyResult.threw).session = emptySession ∧
    isAuthenticated (verifyStoredToken { token := none, user := none } VerifyResult.threw).session = false ∧
    showsLoginScreen (verifyStoredToken { token := none, user := none } VerifyResult.threw).session = true :=
  c2_bootstrap_absent { token := none, user := none } VerifyResult.threw rfl rfl

/-- Claim C8: a successful login with an existing configuration navigates to
the dashboard; with no configuration it navigates to setup; a login whose
authenticate response reports failure performs no navigation and displays
the backend message when one is present, else the fallback. -/
theorem c8_login_routing (s0 : Session) (st0 : Storage) (r : AuthResp)
    (c : ConfigCheckResp) (cfg : Except JsError ConfigCheckResp) (m : String) :
    (r.success = true → c.exists_ = true →
      (handleSubmit s0 st0 (Except.ok r) (Except.ok c)).nav = some Route.dashboard) ∧
    (r.success = true → c.exists_ = false →
      (handleSubmit s0 st0 (Except.ok r) (Except.ok c)).nav = some Route.setup) ∧
    (r.success = false →
      (handleSubmit s0 st0 (Except.ok r) cfg).nav = none ∧
      (r.message = some m → m ≠ "" →
        (handleSubmit s0 st0 (Except.ok r) cfg).errorShown = some m) ∧
      (r.message = none →
        (handleSubmit s0 st0 (Except.ok r) cfg).errorShown = some "Authentication failed")) := by
  refine ⟨fun hs hc => ?_, fun hs hc => ?_, fun hs => ⟨?_, fun hm hne => ?_, fun hm => ?_⟩⟩
  · simp [handleSubmit, loginAction, hs, hc]
  · simp [handleSubmit, loginAction, hs, hc]
  · simp [handleSubmit, loginAction, hs]
  · simp [handleSubmit, loginAction, displayedLoginError, jsOr, jsOrS, hs, hm, hne]
  · simp [handleSubmit, loginAction, displayedLoginError, jsOr, jsOrS, hs, hm]

theorem c8_login_routing_witness :
    (handleSubmit emptySession { token := none, user := none }
      (Except.ok { success := true, token := "t", user := "u", message := none })
      (Except.ok { exists_ := true })).nav = some Route.dashboard :=
  (c8_login_routing emptySession { token := none, user := none }
    { success := true, token := "t", user := "u", message := none }
    { exists_ := true } (Except.ok { exists_ := true }) "").1 rfl rfl

/-- Claim C10: when authenticate reports success but the config-existence
check throws, the session and the persisted storage already hold the new
token and user (isAuthenticated is true), no navigation occurs, and the
login form shows the derived error — the persisted session is not rolled
back. -/
theorem c10_no_rollback_on_config_throw (s0 : Session) (st0 : Storage)
    (r : AuthResp) (e : JsError)
    (hs : r.success = true) (htok : r.token ≠ "") :
    (handleSubmit s0 st0 (Except.ok r) (Except.error e)).session.token = some r.token ∧
    (handleSubmit s0 st0 (Except.ok r) (Except.error e)).session.user = some r.user ∧
    (handleSubmit s0 st0 (Except.ok r) (Except.error e)).storage.token = some r.token ∧
    (handleSubmit s0 st0 (Except.ok r) (Except.error e)).storage.user = some r.user ∧
    isAuthenticated (handleSubmit s0 st0 (Except.ok r) (Except.error e)).session = true ∧
    (handleSubmit s0 st0 (Except.ok r) (Except.error e)).nav = none ∧
    (handleSubmit s0 st0 (Except.ok r) (Except.error e)).errorShown =
      some (displayedLoginError e) := by
  simp [handleSubmit, loginAction, isAuthenticated, truthy, hs, htok]

theorem c10_no_rollback_on_config_throw_witness :
    (handleSubmit emptySession { token := none, user := none }
      (Except.ok { success := true, token := "t", user := "u", message := none })
      (Except.error { respDataMessage := none, message := some "Network Error" })).session.token
        = some "t" ∧
    isAuthenticated (handleSubmit emptySession { token := none, user := none }
      (Except.ok { success := true, token := "t", user := "u", message := none })
      (Except.error { respDataMessage := none, message := some "Network Error" })).session = true :=
  ⟨(c10_no_rollback_on_config_throw emptySession { token := none, user := none }
      { success := true, token := "t", user := "u", message := none }
      { respDataMessage := none, message := some "Network Error" } rfl (by decide)).1,
   (c10_no_rollback_on_config_throw emptySession { token := none, user := none }
      { success := true, token := "t", user := "u", message := none }
      { respDataMessage := none, message := some "Network Error" } rfl (by decide)).2.2.2.2.1⟩

/-- Claim C3: with a tested connection, the save action issues the database
write first; a rejected database write leaves the schedule write unattempted;
the issued call list is exactly the database write alone or the database
write followed by the schedule write; and the schedule payload carries the
entered HH:MM times with the colon removed. -/
theorem c3_setup_save_sequencing (s : SetupState) (u : Option String)
    (dbR emR : Except ApiError Unit) (ht : s.connectionTested = true) :
    (handleSaveConfig s u dbR emR).calls.head?
      = some (SetupCall.saveDb (currentDbConfig s)) ∧
    (∀ e, dbR = Except.error e →
      (handleSaveConfig s u dbR emR).calls = [SetupCall.saveDb (currentDbConfig s)]) ∧
    ((handleSaveConfig s u dbR emR).calls = [SetupCall.saveDb (currentDbConfig s)] ∨
     (handleSaveConfig s u dbR emR).calls
       = [SetupCall.saveDb (currentDbConfig s), SetupCall.saveEmail (emailPayload s u)]) ∧
    (SetupCall.saveEmail (emailPayload s u) ∈ (handleSaveConfig s u dbR emR).calls →
      dbR = Except.ok ()) ∧
    (emailPayload s u).start_time = formatTime s.startTime ∧
    (emailPayload s u).end_time = formatTime s.endTime ∧
    formatTime "06:00" = "0600" ∧
    formatTime "22:00" = "2200" := by
  cases dbR with
  | error e => cases emR <;> simp [handleSaveConfig, ht, emailPayload] <;> decide
  | ok x => cases x; cases emR <;> simp [handleSaveConfig, ht, emailPayload] <;> decide

/-- The Setup state of the spec example: a tested connection with the
example database fields and the default schedule times. -/
def setupExampleState : SetupState :=
  { initialSetupState with
      server := "db1"
      dbUser := "sa"
      dbPassword := "x"
      database := "mail"
      connectionTested := true }

theorem c3_setup_save_sequencing_witness :
    (handleSaveConfig setupExampleState (some "ops") (Except.ok ()) (Except.ok ())).calls.head?
      = some (SetupCall.saveDb (currentDbConfig setupExampleState)) ∧
    (emailPayload setupExampleState (some "ops")).start_time = "0600" ∧
    (emailPayload setupExampleState (some "ops")).end_time = "2200" :=
  ⟨(c3_setup_save_sequencing setupExampleState (some "ops")
      (Except.ok ()) (Except.ok ()) rfl).1,
   ((c3_setup_save_sequencing setupExampleState (some "ops")
      (Except.ok ()) (Except.ok ()) rfl).2.2.2.2.1).trans (by decide),
   ((c3_setup_save_sequencing setupExampleState (some "ops")
      (Except.ok ()) (Except.ok ()) rfl).2.2.2.2.2.1).trans (by decide)⟩

/-- In a state with the tested flag clear, one Setup step that is not a
successful test keeps the flag clear and issues no configuration write. -/
theorem stepSetup_preserves_untested (s : SetupState) (ev : SetupEvent)
    (hs : s.connectionTested = false) (hev : isSuccessfulTest ev = false) :
    (stepSetup s ev).1.connectionTested = false ∧
    ∀ c ∈ (stepSetup s ev).2, isWriteCall c = false := by
  cases ev with
  | edit e => cases e <;> simp [stepSetup, applyEdit, hs]
  | test r =>
      cases r with
      | ok resp =>
          have : resp.success = false := by simpa [isSuccessfulTest] using hev
          simp [stepSetup, handleTestConnection, this, isWriteCall]
      | error e => simp [stepSetup, handleTestConnection, isWriteCall]
  | save u dbR emR => simp [stepSetup, handleSaveConfig, hs]

/-- In a state with the tested flag clear, a Setup event sequence containing
no successful test keeps the flag clear and issues no configuration write. -/
theorem runSetup_untested_invariant (evs : List SetupEvent) (s : SetupState)
    (hs : s.connectionTested = false)
    (h : ∀ ev ∈ evs, isSuccessfulTest ev = false) :
    (runSetup s evs).1.connectionTested = false ∧
    ∀ c ∈ (runSetup s evs).2, isWriteCall c = false := by
  induction evs generalizing s with
  | nil => exact ⟨hs, by simp [runSetup]⟩
  | cons ev evs ih =>
      have hev : isSuccessfulTest ev = false := h ev (List.mem_cons_self ev evs)
      have hrest : ∀ e ∈ evs, isSuccessfulTest e = false :=
        fun e he => h e (List.mem_cons_of_mem ev he)
      have hstep := stepSetup_preserves_untested s ev hs hev
      have htail := ih (stepSetup s ev).1 hstep.1 hrest
      refine ⟨?_, ?_⟩
      · simpa [runSetup] using htail.1
      · intro c hc
        simp only [runSetup, List.mem_append] at hc
        rcases hc with hc | hc
        · exact hstep.2 c hc
        · exact htail.2 c hc

/-- Claim C9: starting from the initial Setup state, as long as no
test-connection call has returned success, the tested flag stays false, the
Save Configuration button is disabled, no configuration write is ever
issued, and a failing test (reported failure or rejection) always leaves the
tested flag false. -/
theorem c9_save_gated_on_test (evs : List SetupEvent)
    (h : ∀ ev ∈ evs, isSuccessfulTest ev = false) :
    (runSetup initialSetupState evs).1.connectionTested = false ∧
    saveButtonDisabled (runSetup initialSetupState evs).1 = true ∧
    (∀ c ∈ (runSetup initialSetupState evs).2, isWriteCall c = false) ∧
    (∀ (s : SetupState) (r : Except ApiError TestResp),
      isSuccessfulTest (SetupEvent.test r) = false →
      (handleTestConnection s r).1.connectionTested = false) := by
  have hinv := runSetup_untested_invariant evs initialSetupState rfl h
  refine ⟨hinv.1, ?_, hinv.2, ?_⟩
  · simp [saveButtonDisabled, hinv.1]
  · intro s r hr
    cases r with
    | ok resp =>
        have : resp.success = false := by simpa [isSuccessfulTest] using hr
        simp [handleTestConnection, this]
    | error e => simp [handleTestConnection]

theorem c9_save_gated_on_test_witness :
    (runSetup initialSetupState
      [SetupEvent.test (Except.ok { success := false, message := some "no route" }),
       SetupEvent.edit (FieldEdit.server "db1"),
       SetupEvent.save (some "ops") (Except.ok ()) (Except.ok ())]).1.connectionTested = false ∧
    saveButtonDisabled (runSetup initialSetupState
      [SetupEvent.test (Except.ok { success := false, message := some "no route" }),
       SetupEvent.edit (FieldEdit.server "db1"),
       SetupEvent.save (some "ops") (Except.ok ()) (Except.ok ())]).1 = true :=
  ⟨(c9_save_gated_on_test _ (by simp [isSuccessfulTest])).1,
   (c9_save_gated_on_test _ (by simp [isSuccessfulTest])).2.1⟩

/-- Claim C5 counterexample: a service-control call whose response reports
failure completes without any re-fetch of the four-way batch, contradicting
the claim that completion always triggers one regardless of success. -/
theorem c5_counterexample :
    (handleServiceControl initialDashState "start"
      (Except.ok { success := false, message := some "boom" })
      (Except.error { respMessage := none, respError := none })
      (Except.error { respMessage := none, respError := none })
      (Except.error { respMessage := none, respError := none })
      (Except.error { respMessage := none, respError := none })).refetched = false := by
  decide

/-- Claim C5 amended: the control buttons are both disabled while a control
action is outstanding; a control response reporting success triggers an
immediate re-fetch of the four-way batch and clears actionLoading; a control
response reporting failure, or a rejected control call, performs no re-fetch,
shows an error notice, and clears actionLoading. -/
theorem c5_control_buttons_and_refetch (s : DashState) (action : String)
    (r : ControlResp) (e : ApiError)
    (dash : Except ApiError DashboardData)
    (cert : Except ApiError CertificateStatus)
    (certs : Except ApiError CertificatesResponse)
    (pins : Except ApiError CertificatePinStatusResponse) :
    startButtonDisabled (controlPending s) = true ∧
    stopButtonDisabled (controlPending s) = true ∧
    (r.success = true →
      (handleServiceControl s action (Except.ok r) dash cert certs pins).refetched = true ∧
      (handleServiceControl s action (Except.ok r) dash cert certs pins).state.actionLoading = false) ∧
    (r.success = false →
      (handleServiceControl s action (Except.ok r) dash cert certs pins).refetched = false ∧
      (handleServiceControl s action (Except.ok r) dash cert certs pins).state.actionLoading = false ∧
      (handleServiceControl s action (Except.ok r) dash cert certs pins).state.message =
        some { isSuccess := false
               text := some (jsOr r.message ("Failed to " ++ action ++ " service")) }) ∧
    ((handleServiceControl s action (Except.error e) dash cert certs pins).refetched = false ∧
     (handleServiceControl s action (Except.error e) dash cert certs pins).state.actionLoading = false ∧
     (handleServiceControl s action (Except.error e) dash cert certs pins).state.message =
        some { isSuccess := false
               text := some (jsOr e.respMessage ("Failed to " ++ action ++ " service")) }) := by
  refine ⟨?_, ?_, fun hs => ?_, fun hs => ?_, ?_⟩
  · simp [startButtonDisabled, controlPending]
  · simp [stopButtonDisabled, controlPending]
  · refine ⟨by simp [handleServiceControl, hs], ?_⟩
    cases dash <;> cases cert <;> cases certs <;> cases pins <;>
      simp [handleServiceControl, hs, fetchData, fetchDataFail, controlPending]
  · simp [handleServiceControl, hs, controlPending]
  · simp [handleServiceControl, controlPending]

theorem c5_control_buttons_and_refetch_witness :
    (handleServiceControl initialDashState "stop"
      (Except.ok { success := true, message := some "stopped" })
      (Except.error { respMessage := none, respError := none })
      (Except.error { respMessage := none, respError := none })
      (Except.error { respMessage := none, respError := none })
      (Except.error { respMessage := none, respError := none })).refetched = true :=
  ((c5_control_buttons_and_refetch initialDashState "stop"
    { success := true, message := some "stopped" }
    { respMessage := none, respError := none }
    (Except.error { respMessage := none, respError := none })
    (Except.error { respMessage := none, respError := none })
    (Except.error { respMessage := none, respError := none })
    (Except.error { respMessage := none, respError := none })).2.2.1 rfl).1

/-- Claim C6: when any one of the four reads of a dashboard fetch cycle
rejects, none of the four displayed snapshots changes, loading ends and an
error notice is shown; when all four resolve, all four snapshots are
replaced by the new values and loading ends. -/
theorem c6_fetch_all_or_nothing (s : DashState)
    (dash : Except ApiError DashboardData)
    (cert : Except ApiError CertificateStatus)
    (certs : Except ApiError CertificatesResponse)
    (pins : Except ApiError CertificatePinStatusResponse) :
    (((∃ e, dash = Except.error e) ∨ (∃ e, cert = Except.error e) ∨
      (∃ e, certs = Except.error e) ∨ (∃ e, pins = Except.error e)) →
      (fetchData s dash cert certs pins).dashboardData = s.dashboardData ∧
      (fetchData s dash cert certs pins).certificateStatus = s.certificateStatus ∧
      (fetchData s dash cert certs pins).certificates = s.certificates ∧
      (fetchData s dash cert certs pins).certificatePinStatus = s.certificatePinStatus ∧
      (fetchData s dash cert certs pins).loading = false ∧
      (∃ t, (fetchData s dash cert certs pins).message =
        some { isSuccess := false, text := some t })) ∧
    (∀ d c cs p, dash = Except.ok d → cert = Except.ok c →
      certs = Except.ok cs → pins = Except.ok p →
      (fetchData s dash cert certs pins).dashboardData = some d ∧
      (fetchData s dash cert certs pins).certificateStatus = some c ∧
      (fetchData s dash cert certs pins).certificates = some cs ∧
      (fetchData s dash cert certs pins).certificatePinStatus = some p ∧
      (fetchData s dash cert certs pins).loading = false) := by
  cases dash <;> cases cert <;> cases certs <;> cases pins <;>
    simp_all [fetchData, fetchDataFail]

theorem c6_fetch_all_or_nothing_witness :
    (fetchData initialDashState
      (Except.error { respMessage := some "backend down", respError := none })
      (Except.error { respMessage := none, respError := none })
      (Except.error { respMessage := none, respError := none })
      (Except.error { respMessage := none, respError := none })).dashboardData
        = initialDashState.dashboardData ∧
    (fetchData initialDashState
      (Except.error { respMessage := some "backend down", respError := none })
      (Except.error { respMessage := none, respError := none })
      (Except.error { respMessage := none, respError := none })
      (Except.error { respMessage := none, respError := none })).loading = false :=
  ⟨((c6_fetch_all_or_nothing initialDashState
      (Except.error { respMessage := some "backend down", respError := none })
      (Except.error { respMessage := none, respError := none })
      (Except.error { respMessage := none, respError := none })
      (Except.error { respMessage := none, respError := none })).1
      (Or.inl ⟨{ respMessage := some "backend down", respError := none }, rfl⟩)).1,
   ((c6_fetch_all_or_nothing initialDashState
      (Except.error { respMessage := some "backend down", respError := none })
      (Except.error { respMessage := none, respError := none })
      (Except.error { respMessage := none, respError := none })
      (Except.error { respMessage := none, respError := none })).1
      (Or.inl ⟨{ respMessage := some "backend down", respError := none }, rfl⟩)).2.2.2.2.1⟩

/-- Claim C7: while the dashboard is mounted a timer-driven four-way batch
is initiated at every whole multiple of ten seconds after mount that falls
before unmount; the cleanup clears the interval at unmount, so at no time at
or after unmount is a timer-driven batch initiated; and any timer-driven
batch occurs exactly at such a multiple. -/
theorem c7_polling_timer (m u : Nat) :
    (∀ k : Nat, 1 ≤ k → m + pollPeriodMs * k < u →
      timerBatchAt m u (m + pollPeriodMs * k) = true) ∧
    (∀ t, u ≤ t → timerBatchAt m u t = false) ∧
    (∀ t, timerBatchAt m u t = true →
      ∃ k, 1 ≤ k ∧ t = m + pollPeriodMs * k ∧ t < u) := by
  have hp : pollPeriodMs = 10000 := rfl
  refine ⟨fun k hk hlt => ?_, fun t ht => ?_, fun t hfire => ?_⟩
  · rw [hp] at hlt
    simp only [timerBatchAt, intervalFiresAt, dashboardTimer, hp, decide_eq_true_eq]
    omega
  · simp only [timerBatchAt, intervalFiresAt, dashboardTimer, hp,
      decide_eq_false_iff_not]
    omega
  · simp only [timerBatchAt, intervalFiresAt, dashboardTimer, hp,
      decide_eq_true_eq] at hfire
    obtain ⟨hm, hmod, hu⟩ := hfire
    have hdvd : 10000 ∣ (t - m) := Nat.dvd_of_mod_eq_zero hmod
    obtain ⟨k, hk⟩ := hdvd
    exact ⟨k, by omega, by rw [hp]; omega, hu⟩

theorem c7_polling_timer_witness :
    timerBatchAt 0 25000 (0 + pollPeriodMs * 1) = true ∧
    timerBatchAt 0 25000 30000 = false :=
  ⟨(c7_polling_timer 0 25000).1 1 (by decide) (by decide),
   (c7_polling_timer 0 25000).2.1 30000 (by decide)⟩

/-- A hardware certificate used in the PIN-save scenarios. -/
def sampleHardwareCert : Certificate :=
  { subject := "CN=Signer"
    issuer := "CN=CA"
    serial_number := "01"
    not_valid_before := "2024-01-01"
    not_valid_after := "2026-01-01"
    thumbprint := "AB12"
    has_private_key := true
    store_name := none
    store_location := none
    source := "hardware"
    token_label := some "tok1"
    slot_id := some 1 }

/-- The Dashboard state with the PIN modal open on the sample certificate
and a PIN typed in. -/
def pinReadyState : DashState :=
  { initialDashState with
      showPinModal := true
      selectedCertificate := some sampleHardwareCert
      pinInput := "1234" }

/-- Claim C4 counterexample: for the same failing result with only an error
field, the bare-object response shows the fallback text while the
single-element array response shows the error text, so the two shapes do not
produce the same failure message. -/
theorem c4_counterexample :
    (handleSavePin pinReadyState
      (Except.ok (PinResponse.obj { success := false, message := none, error := some "bad pin" }))
      (Except.error { respMessage := none, respError := none })).1.pinModalError
        = some "Failed to save PIN" ∧
    (handleSavePin pinReadyState
      (Except.ok (PinResponse.arr [{ success := false, message := none, error := some "bad pin" }]))
      (Except.error { respMessage := none, respError := none })).1.pinModalError
        = some "bad pin" := by
  decide

/-- Claim C4 amended: for a PIN save with a certificate selected and a
non-empty input, a succeeding first array element and a succeeding bare
object produce identical results (modal closed, input cleared, forced PIN
status refresh issued); a failing first array element shows its error field,
else its message field, else the fallback, with the modal state untouched;
a failing bare object shows its message field, else the fallback — its
error field is ignored. -/
theorem c4_pin_response_shapes (s : DashState) (c : Certificate) (r : PinResult)
    (refreshR : Except ApiError CertificatePinStatusResponse)
    (hc : s.selectedCertificate = some c) (hp : s.pinInput ≠ "") :
    (r.success = true →
      handleSavePin s (Except.ok (PinResponse.obj r)) refreshR
        = handleSavePin s (Except.ok (PinResponse.arr [r])) refreshR ∧
      (handleSavePin s (Except.ok (PinResponse.obj r)) refreshR).1.showPinModal = false ∧
      (handleSavePin s (Except.ok (PinResponse.obj r)) refreshR).1.pinInput = "" ∧
      PinCall.pinStatusQuery true ∈ (handleSavePin s (Except.ok (PinResponse.obj r)) refreshR).2) ∧
    (r.success = false →
      (handleSavePin s (Except.ok (PinResponse.arr [r])) refreshR).1.pinModalError
        = some (jsOr r.error (jsOr r.message "Failed to save PIN")) ∧
      (handleSavePin s (Except.ok (PinResponse.arr [r])) refreshR).1.showPinModal
        = s.showPinModal ∧
      (handleSavePin s (Except.ok (PinResponse.obj r)) refreshR).1.pinModalError
        = some (jsOr r.message "Failed to save PIN") ∧
      (handleSavePin s (Except.ok (PinResponse.obj r)) refreshR).1.showPinModal
        = s.showPinModal) := by
  have hpt : truthy (some s.pinInput) = true := by
    simp [truthy, hp]
  refine ⟨fun hs => ?_, fun hs => ?_⟩
  · cases refreshR <;> simp [handleSavePin, hc, hpt, hs, pinSuccessState]
  · simp [handleSavePin, hc, hpt, hs]

theorem c4_pin_response_shapes_witness :
    (handleSavePin pinReadyState
      (Except.ok (PinResponse.obj { success := false, message := some "bad pin", error := none }))
      (Except.error { respMessage := none, respError := none })).1.pinModalError
        = some (jsOr (some "bad pin") "Failed to save PIN") :=
  ((c4_pin_response_shapes pinReadyState sampleHardwareCert
      { success := false, message := some "bad pin", error := none }
      (Except.error { respMessage := none, respError := none })
      rfl (by decide)).2 rfl).2.2.1
